import Mathlib

/-!
Verification of the CipherPol phishing-detection system.

A shallow embedding of the scoring orchestrator
(`modules/robust_phishing_detector.py`), the whitelist store
(`modules/company_database.py`) and the algorithmic domain detectors
(`modules/domain_analyzer.py`).  Python floats are modelled by exact
rationals (`ℚ`) and, where a logarithm is involved, by real numbers;
Python strings by `String` / `List Char`.  Dictionaries whose key sets
vary (the weight dicts) are modelled as association lists.
-/

set_option maxRecDepth 4000

namespace PhishDetect

/-! ### Risk classification (`RobustPhishingDetector._determine_risk_level`)

```
if trust_score >= 70: return 'LOW'
elif trust_score >= 40: return 'MEDIUM'
elif trust_score >= 20: return 'HIGH'
else: return 'CRITICAL'
```
The Python call sites pass the (float) trust score, modelled as `ℚ`. -/

def determine_risk_level (trust_score : ℚ) : String :=
  if 70 ≤ trust_score then "LOW"
  else if 40 ≤ trust_score then "MEDIUM"
  else if 20 ≤ trust_score then "HIGH"
  else "CRITICAL"

/-- Severity rank of a risk tier, `LOW` least severe, `CRITICAL` most. -/
def riskSeverity (level : String) : ℕ :=
  if level = "LOW" then 0
  else if level = "MEDIUM" then 1
  else if level = "HIGH" then 2
  else 3

/-! ### Scoring weights and combination (`_combine_analysis_results_robust`,
`_combine_analysis_results_with_visual`)

`self.weights = {'domain': 0.30, 'content': 0.35, 'technical': 0.20,
'visual': 0.15}` and `self.base_score = 70`.  A weight dict is an
association list (the Python dicts here have varying key sets: the
special-cased branches of the robust combiner build three-key dicts,
`self.weights.copy()` has four keys). -/

def baseWeights : List (String × ℚ) :=
  [("domain", 3/10), ("content", 7/20), ("technical", 1/5), ("visual", 3/20)]

def base_score : ℚ := 70

/-- `ws[k]`: value of key `k` in a weight dict (0 if absent; every Python
access is to a present key). -/
def weightOf (ws : List (String × ℚ)) (k : String) : ℚ :=
  match ws.find? (fun p => p.1 == k) with
  | some p => p.2
  | none => 0

lemma weightOf_nil (k : String) : weightOf [] k = 0 := rfl

lemma weightOf_cons (k' : String) (v : ℚ) (ws : List (String × ℚ)) (k : String) :
    weightOf ((k', v) :: ws) k = if k' == k then v else weightOf ws k := by
  cases h : (k' == k) <;> simp [weightOf, List.find?, h]

/-- The adjusted weight dict of `_combine_analysis_results_robust`
(robust_phishing_detector.py lines 518-533).  `dErr`/`cErr`/`tErr` mean
the corresponding analyzer result carries an `'error'` key.
`successful_analyses > 0` is `¬dErr ∨ ¬cErr ∨ ¬tErr`; the three
special-cased failure patterns are translated branch for branch, and the
final `else` returns `self.weights.copy()` (the four-key base dict). -/
def adjusted_weights_robust (dErr cErr tErr : Bool) : List (String × ℚ) :=
  if !dErr || !cErr || !tErr then
    if !dErr && !tErr && cErr then
      [("domain", 3/5), ("content", 0), ("technical", 2/5)]
    else if !dErr && tErr && cErr then
      [("domain", 1), ("content", 0), ("technical", 0)]
    else if dErr && !cErr && !tErr then
      [("domain", 0), ("content", 3/5), ("technical", 2/5)]
    else
      baseWeights
  else
    [("domain", 0), ("content", 0), ("technical", 0)]

/-- `weighted_score` of the robust combiner: each component score is the
analyzer's `score` when it succeeded and 0 when it failed (lines 507-509),
multiplied by its adjusted weight (lines 536-540). -/
def weighted_score_robust (dErr cErr tErr : Bool) (ds cs ts : ℚ) : ℚ :=
  let ws := adjusted_weights_robust dErr cErr tErr
  (if dErr then 0 else ds) * weightOf ws "domain"
    + (if cErr then 0 else cs) * weightOf ws "content"
    + (if tErr then 0 else ts) * weightOf ws "technical"

/-- `trust_score = max(0, min(100, self.base_score + weighted_score))`
(line 543), before the `int()` conversion. -/
def trust_score_robust (dErr cErr tErr : Bool) (ds cs ts : ℚ) : ℚ :=
  max 0 (min 100 (base_score + weighted_score_robust dErr cErr tErr ds cs ts))

/-- The `'trust_score'` field of the combined result: `int(trust_score)`
(line 565).  Python `int()` truncates toward zero; the clamped value is
nonnegative, so this is the floor. -/
def trust_score_robust_int (dErr cErr tErr : Bool) (ds cs ts : ℚ) : ℤ :=
  ⌊trust_score_robust dErr cErr tErr ds cs ts⌋

/-- The adjusted weight dict of `_combine_analysis_results_with_visual`
(lines 789-811): start from the base weights, zero out every failed
module (visual also when no visual analyzer is configured, `hv = false`),
then divide by the total when it is positive.  `vErr` means the visual
result carries an `'error'` key; a success is counted for visual only
when additionally `hv = true` (line 786). -/
def adjusted_weights_with_visual (dErr cErr tErr vErr hv : Bool) : List (String × ℚ) :=
  let successes : ℕ :=
    (if !dErr then 1 else 0) + (if !cErr then 1 else 0) + (if !tErr then 1 else 0)
      + (if !vErr && hv then 1 else 0)
  if 0 < successes then
    let zeroed : List (String × ℚ) :=
      [("domain", if dErr then 0 else 3/10), ("content", if cErr then 0 else 7/20),
       ("technical", if tErr then 0 else 1/5), ("visual", if vErr || !hv then 0 else 3/20)]
    let total := (zeroed.map Prod.snd).sum
    if 0 < total then zeroed.map (fun p => (p.1, p.2 / total))
    else [("domain", 0), ("content", 0), ("technical", 0), ("visual", 0)]
  else
    [("domain", 0), ("content", 0), ("technical", 0), ("visual", 0)]

/-- `weighted_score` of the four-module combiner (lines 814-819), error
scores zeroed as at lines 776-779. -/
def weighted_score_with_visual (dErr cErr tErr vErr hv : Bool) (ds cs ts vs : ℚ) : ℚ :=
  let ws := adjusted_weights_with_visual dErr cErr tErr vErr hv
  (if dErr then 0 else ds) * weightOf ws "domain"
    + (if cErr then 0 else cs) * weightOf ws "content"
    + (if tErr then 0 else ts) * weightOf ws "technical"
    + (if vErr then 0 else vs) * weightOf ws "visual"

/-- Clamped trust score of the four-module combiner (line 822). -/
def trust_score_with_visual (dErr cErr tErr vErr hv : Bool) (ds cs ts vs : ℚ) : ℚ :=
  max 0 (min 100 (base_score + weighted_score_with_visual dErr cErr tErr vErr hv ds cs ts vs))

/-- The `'trust_score'` field placed in the four-module combined result
(`int(trust_score)`, line 846). -/
def trust_score_with_visual_int (dErr cErr tErr vErr hv : Bool) (ds cs ts vs : ℚ) : ℤ :=
  ⌊trust_score_with_visual dErr cErr tErr vErr hv ds cs ts vs⌋

/-! ### Theorems for C8 and C9 -/

lemma floor_clamp_bounds (x : ℚ) : 0 ≤ ⌊max 0 (min 100 x)⌋ ∧ ⌊max 0 (min 100 x)⌋ ≤ 100 := by
  constructor
  · exact Int.floor_nonneg.mpr (le_max_left 0 _)
  · have h : max 0 (min 100 x) ≤ 100 := max_le (by norm_num) (min_le_left _ _)
    calc ⌊max 0 (min 100 x)⌋ ≤ ⌊(100 : ℚ)⌋ := Int.floor_le_floor h
      _ = 100 := by norm_num

/-- C8: the risk classification is total and monotone: for every integer
trust score exactly one of LOW, MEDIUM, HIGH, CRITICAL is returned, with
score ≥ 70 ↦ LOW, 40..69 ↦ MEDIUM, 20..39 ↦ HIGH, < 20 ↦ CRITICAL
(the four iff-characterisations below are mutually exclusive and
exhaustive), and for s1 ≤ s2 the tier of s1 is at least as severe as the
tier of s2. -/
theorem C8_risk_level_total_monotone :
    (∀ s : ℤ,
        (determine_risk_level (s : ℚ) = "LOW" ↔ 70 ≤ s)
        ∧ (determine_risk_level (s : ℚ) = "MEDIUM" ↔ 40 ≤ s ∧ s < 70)
        ∧ (determine_risk_level (s : ℚ) = "HIGH" ↔ 20 ≤ s ∧ s < 40)
        ∧ (determine_risk_level (s : ℚ) = "CRITICAL" ↔ s < 20))
    ∧ (∀ s1 s2 : ℤ, s1 ≤ s2 →
        riskSeverity (determine_risk_level (s2 : ℚ)) ≤
          riskSeverity (determine_risk_level (s1 : ℚ))) := by
  constructor
  · intro s
    unfold determine_risk_level
    have h70 : ((70 : ℚ) ≤ (s : ℚ)) ↔ 70 ≤ s := by exact_mod_cast Iff.rfl
    have h40 : ((40 : ℚ) ≤ (s : ℚ)) ↔ 40 ≤ s := by exact_mod_cast Iff.rfl
    have h20 : ((20 : ℚ) ≤ (s : ℚ)) ↔ 20 ≤ s := by exact_mod_cast Iff.rfl
    simp only [h70, h40, h20]
    split_ifs with h1 h2 h3 <;> refine ⟨?_, ?_, ?_, ?_⟩ <;> simp <;> omega
  · intro s1 s2 h
    have h' : (s1 : ℚ) ≤ (s2 : ℚ) := by exact_mod_cast h
    unfold determine_risk_level
    split_ifs <;> first | decide | linarith

/-- C9: in both combiners the trust score placed in the result is
`int(clamp(base_score + weighted_score, 0, 100))` and always lies in
[0, 100], no matter how extreme the component score deltas are. -/
theorem C9_trust_score_clamped :
    ∀ (dE cE tE vE hv : Bool) (ds cs ts vs : ℚ),
      (trust_score_robust dE cE tE ds cs ts
          = max 0 (min 100 (base_score + weighted_score_robust dE cE tE ds cs ts))
        ∧ 0 ≤ trust_score_robust_int dE cE tE ds cs ts
        ∧ trust_score_robust_int dE cE tE ds cs ts ≤ 100)
      ∧ (trust_score_with_visual dE cE tE vE hv ds cs ts vs
          = max 0 (min 100 (base_score + weighted_score_with_visual dE cE tE vE hv ds cs ts vs))
        ∧ 0 ≤ trust_score_with_visual_int dE cE tE vE hv ds cs ts vs
        ∧ trust_score_with_visual_int dE cE tE vE hv ds cs ts vs ≤ 100) := by
  intro dE cE tE vE hv ds cs ts vs
  exact ⟨⟨rfl, (floor_clamp_bounds _).1, (floor_clamp_bounds _).2⟩,
    ⟨rfl, (floor_clamp_bounds _).1, (floor_clamp_bounds _).2⟩⟩

/-- C1's claimed invariant fails for the three-module combiner: when the
domain and technical analyzers fail and only the content analyzer
succeeds, the code's `else` branch returns the base weight dict
unchanged, so the failed domain source keeps weight 0.3 (not 0) and the
single successful source's weight is 0.35 (not 1). -/
theorem C1_counterexample :
    adjusted_weights_robust true false true = baseWeights
    ∧ weightOf (adjusted_weights_robust true false true) "domain" = 3/10
    ∧ weightOf (adjusted_weights_robust true false true) "content" = 7/20 := by
  refine ⟨rfl, ?_, ?_⟩ <;>
    simp [adjusted_weights_robust, baseWeights, weightOf_cons, weightOf_nil]

set_option maxHeartbeats 2000000 in
/-- C1 (amended): the four-module combiner does satisfy the claim: it
zeroes every failed source's weight and the four weights sum exactly to 1
whenever at least one source succeeds, and are all 0 when none does.  The
three-module combiner satisfies it only in the patterns its code
special-cases — all fail, only content fails, only domain succeeds, only
domain fails; in every other pattern (all succeed, only technical fails,
only content succeeds, only technical succeeds) it returns the four-key
base weight dict unchanged, so failed sources can keep their base weight
and the three module weights sum to 0.85. -/
theorem C1_amended_weights :
    (∀ dE cE tE vE hv : Bool,
        (dE = true → weightOf (adjusted_weights_with_visual dE cE tE vE hv) "domain" = 0)
        ∧ (cE = true → weightOf (adjusted_weights_with_visual dE cE tE vE hv) "content" = 0)
        ∧ (tE = true → weightOf (adjusted_weights_with_visual dE cE tE vE hv) "technical" = 0)
        ∧ ((vE || !hv) = true →
            weightOf (adjusted_weights_with_visual dE cE tE vE hv) "visual" = 0)
        ∧ ((dE && cE && tE && (vE || !hv)) = false →
            weightOf (adjusted_weights_with_visual dE cE tE vE hv) "domain"
              + weightOf (adjusted_weights_with_visual dE cE tE vE hv) "content"
              + weightOf (adjusted_weights_with_visual dE cE tE vE hv) "technical"
              + weightOf (adjusted_weights_with_visual dE cE tE vE hv) "visual" = 1)
        ∧ ((dE && cE && tE && (vE || !hv)) = true →
            weightOf (adjusted_weights_with_visual dE cE tE vE hv) "domain" = 0
              ∧ weightOf (adjusted_weights_with_visual dE cE tE vE hv) "content" = 0
              ∧ weightOf (adjusted_weights_with_visual dE cE tE vE hv) "technical" = 0
              ∧ weightOf (adjusted_weights_with_visual dE cE tE vE hv) "visual" = 0))
    ∧ adjusted_weights_robust false true false
        = [("domain", 3/5), ("content", 0), ("technical", 2/5)]
    ∧ adjusted_weights_robust false true true
        = [("domain", 1), ("content", 0), ("technical", 0)]
    ∧ adjusted_weights_robust true false false
        = [("domain", 0), ("content", 3/5), ("technical", 2/5)]
    ∧ adjusted_weights_robust true true true
        = [("domain", 0), ("content", 0), ("technical", 0)]
    ∧ adjusted_weights_robust false false false = baseWeights
    ∧ adjusted_weights_robust false false true = baseWeights
    ∧ adjusted_weights_robust true false true = baseWeights
    ∧ adjusted_weights_robust true true false = baseWeights := by
  refine ⟨?_, rfl, rfl, rfl, rfl, rfl, rfl, rfl, rfl⟩
  intro dE cE tE vE hv
  cases dE <;> cases cE <;> cases tE <;> cases vE <;> cases hv <;>
    refine ⟨?_, ?_, ?_, ?_, ?_, ?_⟩ <;> intro h
  all_goals simp_all [adjusted_weights_with_visual, weightOf_cons, weightOf_nil]
  all_goals norm_num [weightOf_cons, weightOf_nil]
  all_goals simp
  all_goals norm_num

/-! ### List utilities mirroring Python string operations

Python strings are modelled as `List Char`; `pat in s` is `containsSub`,
`s.split(sep, 1)[1]` is `afterFirst`, `s.split(sep)[0]` is
`takeUntilChar`, `s.strip()` is `trimChars` (Lean's `Char.isWhitespace`
covers the ASCII whitespace that occurs in practice), `s.split(sep)` is
`splitOnChar`. -/

def containsSub (pat : List Char) : List Char → Bool
  | [] => pat.isEmpty
  | c :: rest => pat.isPrefixOf (c :: rest) || containsSub pat rest

def afterFirst (pat : List Char) : List Char → List Char
  | [] => []
  | c :: rest =>
    if pat.isPrefixOf (c :: rest) then (c :: rest).drop pat.length else afterFirst pat rest

def takeUntilChar (sep : Char) (l : List Char) : List Char :=
  l.takeWhile (fun c => c != sep)

def trimChars (l : List Char) : List Char :=
  ((l.dropWhile Char.isWhitespace).reverse.dropWhile Char.isWhitespace).reverse

def splitOnChar (sep : Char) : List Char → List (List Char)
  | [] => [[]]
  | c :: rest =>
    match splitOnChar sep rest with
    | [] => [[]]
    | h :: t => if c = sep then [] :: h :: t else (c :: h) :: t

/-! ### Homograph detection (`DomainAnalyzer._detect_homograph_attacks`,
domain_analyzer.py lines 481-508)

`domain.encode('ascii')` raises exactly when some character has code
point > 127; on failure the detector emits a -18-point negative signal
whose evidence lists the offending characters (each rendered with its
`U+xxxx` code point — the rendering is presentation, modelled by the
character list itself) capped at the first five (`suspicious_chars[:5]`).
The result is the evidence list when the signal fires. -/

def detect_homograph_attacks (domain : List Char) : Option (List Char) :=
  if (domain.filter (fun c => 127 < c.toNat)).isEmpty then none
  else some ((domain.filter (fun c => 127 < c.toNat)).take 5)

/-! ### Typosquatting detection (`DomainAnalyzer._detect_typosquatting`,
domain_analyzer.py lines 452-479)

`difflib.SequenceMatcher(None, a, b).ratio()` is `2 * M / (len a + len b)`
where `M` is the total size of the matching blocks: recursively take the
longest common substring (earliest start in `a`, then in `b`, on ties —
with no junk characters the post-loop extension steps of
`find_longest_match` are no-ops) and recurse on the pieces to its left
and to its right.  The recursion is written with explicit fuel
(`len a + len b + 1` strictly bounds its depth).  Python floats are
modelled by exact rationals. -/

def commonRunLen : List Char → List Char → ℕ
  | a :: as, b :: bs => if a = b then commonRunLen as bs + 1 else 0
  | _, _ => 0

/-- Longest common substring of `a` and `b` as `(start in a, start in b,
length)`; ties resolved to the smallest start in `a`, then in `b`, by the
strict `<` update over the ascending scan. -/
def bestMatch (a b : List Char) : ℕ × ℕ × ℕ :=
  (List.range a.length).foldl (fun best i =>
    (List.range b.length).foldl (fun best j =>
      let k := commonRunLen (a.drop i) (b.drop j)
      if best.2.2 < k then (i, j, k) else best) best) (0, 0, 0)

def matchingTotalFuel : ℕ → List Char → List Char → ℕ
  | 0, _, _ => 0
  | fuel + 1, a, b =>
    let m := bestMatch a b
    if m.2.2 = 0 then 0
    else
      m.2.2 + matchingTotalFuel fuel (a.take m.1) (b.take m.2.1)
        + matchingTotalFuel fuel (a.drop (m.1 + m.2.2)) (b.drop (m.2.1 + m.2.2))

def matchingTotal (a b : List Char) : ℕ :=
  matchingTotalFuel (a.length + b.length + 1) a b

/-- `SequenceMatcher.ratio()`; on two empty sequences difflib returns 1. -/
def sequenceMatcherRatio (a b : List Char) : ℚ :=
  if a.length + b.length = 0 then 1
  else 2 * (matchingTotal a b : ℚ) / ((a.length : ℚ) + (b.length : ℚ))

/-- `self.major_brands` (domain_analyzer.py lines 52-56).  The Python
object is a `set`; its iteration order is unspecified, so the order of
this list is the source order, and every order-sensitive statement below
is backed by an order-independent one. -/
def major_brands : List String :=
  ["google.com", "facebook.com", "paypal.com", "amazon.com", "microsoft.com",
   "apple.com", "netflix.com", "spotify.com", "instagram.com", "twitter.com",
   "linkedin.com", "ebay.com", "chase.com", "bankofamerica.com", "wells-fargo.com"]

/-- `domain.lower()` then strip a leading `www.` (lines 456-460). -/
def typosquatNormalize (domain : List Char) : List Char :=
  let d := domain.map Char.toLower
  if ['w', 'w', 'w', '.'].isPrefixOf d then d.drop 4 else d

/-- The firing condition of the loop body (line 467):
`0.85 < ratio < 0.995 and domain_lower != brand_domain`. -/
def typosquatCond (d brand : List Char) : Prop :=
  17/20 < sequenceMatcherRatio d brand
    ∧ sequenceMatcherRatio d brand < 199/200 ∧ d ≠ brand

instance typosquatCondDec (d brand : List Char) : Decidable (typosquatCond d brand) := by
  unfold typosquatCond
  exact inferInstance

/-- The `for brand_domain in self.major_brands: ... break` loop: emits at
most one signal, naming the first brand that satisfies the condition. -/
def detect_typosquatting (domain : List Char) : Option String :=
  major_brands.find?
    (fun b => decide (typosquatCond (typosquatNormalize domain) b.toList))

/-- Integer form of `typosquatCond`, used to evaluate it on concrete
inputs (`0.85 = 17/20` and `0.995 = 199/200` cross-multiplied). -/
def typosquatCondB (d brand : List Char) : Bool :=
  decide (17 * (d.length + brand.length) < 40 * matchingTotal d brand)
    && (decide (400 * matchingTotal d brand < 199 * (d.length + brand.length))
      && decide (d ≠ brand))

lemma div_lt_two_mul_div_iff (M T : ℕ) (hT : (0:ℚ) < (T:ℚ)) :
    ((17:ℚ)/20 < 2 * (M:ℚ) / (T:ℚ)) ↔ 17 * T < 40 * M := by
  rw [div_lt_div_iff₀ (by norm_num) hT]
  rw [show (2:ℚ) * (M:ℚ) * 20 = ((40 * M : ℕ) : ℚ) by push_cast; ring]
  rw [show (17:ℚ) * (T:ℚ) = ((17 * T : ℕ) : ℚ) by push_cast; ring]
  exact_mod_cast Iff.rfl

lemma two_mul_div_lt_div_iff (M T : ℕ) (hT : (0:ℚ) < (T:ℚ)) :
    (2 * (M:ℚ) / (T:ℚ) < (199:ℚ)/200) ↔ 400 * M < 199 * T := by
  rw [div_lt_div_iff₀ hT (by norm_num)]
  rw [show (2:ℚ) * (M:ℚ) * 200 = ((400 * M : ℕ) : ℚ) by push_cast; ring]
  rw [show (199:ℚ) * (T:ℚ) = ((199 * T : ℕ) : ℚ) by push_cast; ring]
  exact_mod_cast Iff.rfl

lemma typosquatCond_iff (d brand : List Char) :
    typosquatCond d brand ↔
      (17 * (d.length + brand.length) < 40 * matchingTotal d brand
        ∧ 400 * matchingTotal d brand < 199 * (d.length + brand.length)
        ∧ d ≠ brand) := by
  unfold typosquatCond sequenceMatcherRatio
  rcases Nat.eq_zero_or_pos (d.length + brand.length) with h | h
  · have hd : d = [] := List.eq_nil_of_length_eq_zero (by omega)
    have hb : brand = [] := List.eq_nil_of_length_eq_zero (by omega)
    subst hd; subst hb
    simp
  · have h0 : ¬ (d.length + brand.length = 0) := by omega
    rw [if_neg h0]
    have hT : (0:ℚ) < ((d.length : ℚ) + (brand.length : ℚ)) := by
      exact_mod_cast h
    have hTc : ((d.length : ℚ) + (brand.length : ℚ)) = ((d.length + brand.length : ℕ) : ℚ) := by
      push_cast; ring
    rw [hTc] at hT ⊢
    rw [div_lt_two_mul_div_iff _ _ hT, two_mul_div_lt_div_iff _ _ hT]

lemma decide_typosquatCond (d brand : List Char) :
    decide (typosquatCond d brand) = typosquatCondB d brand := by
  unfold typosquatCondB
  rw [← Bool.decide_and, ← Bool.decide_and]
  exact decide_eq_decide.mpr (typosquatCond_iff d brand)

lemma detect_typosquatting_eq (domain : List Char) :
    detect_typosquatting domain
      = major_brands.find? (fun b => typosquatCondB (typosquatNormalize domain) b.toList) := by
  unfold detect_typosquatting
  congr 1
  funext b
  exact decide_typosquatCond _ _

/-- C7: the typosquatting detector emits a signal iff some brand's
similarity ratio lies in the open interval (0.85, 0.995) with the
normalized domain different from the brand; any emitted signal names a
brand satisfying that condition (the `Option` result emits at most one,
the loop breaking at its first match); `paypa1.com` is flagged as
`paypal.com` — the unique matching brand, so independent of the Python
set's iteration order — and the exact domain `paypal.com` is not
flagged. -/
theorem C7_typosquatting :
    (∀ domain : List Char,
        (detect_typosquatting domain).isSome = true
          ↔ ∃ b ∈ major_brands, typosquatCond (typosquatNormalize domain) b.toList)
    ∧ (∀ (domain : List Char) (brand : String),
        detect_typosquatting domain = some brand →
          brand ∈ major_brands ∧ typosquatCond (typosquatNormalize domain) brand.toList)
    ∧ detect_typosquatting "paypa1.com".toList = some "paypal.com"
    ∧ major_brands.filter
        (fun b => decide (typosquatCond (typosquatNormalize "paypa1.com".toList) b.toList))
        = ["paypal.com"]
    ∧ detect_typosquatting "paypal.com".toList = none := by
  refine ⟨?_, ?_, ?_, ?_, ?_⟩
  · intro domain
    unfold detect_typosquatting
    rw [List.find?_isSome]
    constructor
    · rintro ⟨b, hb, hc⟩
      exact ⟨b, hb, of_decide_eq_true hc⟩
    · rintro ⟨b, hb, hc⟩
      exact ⟨b, hb, decide_eq_true hc⟩
  · intro domain brand h
    unfold detect_typosquatting at h
    have hp := List.find?_some h
    exact ⟨List.mem_of_find?_eq_some h, of_decide_eq_true hp⟩
  · rw [detect_typosquatting_eq]
    decide
  · have hf : (fun b : String =>
        decide (typosquatCond (typosquatNormalize "paypa1.com".toList) b.toList))
        = fun b : String => typosquatCondB (typosquatNormalize "paypa1.com".toList) b.toList :=
      funext fun b => decide_typosquatCond _ _
    rw [hf]
    decide
  · rw [detect_typosquatting_eq]
    decide

/-- C3's claimed trigger fails for ASCII Punycode: a hostname containing
`xn--` but no raw non-ASCII character encodes as ASCII fine, so
`_detect_homograph_attacks` emits nothing for it. -/
theorem C3_counterexample :
    "xn--".toList.isPrefixOf "xn--80ak6aa92e.com".toList = true
    ∧ detect_homograph_attacks "xn--80ak6aa92e.com".toList = none := by
  decide

/-- C3 (amended): the homograph detector emits a negative signal iff the
hostname contains a raw character with code point > 127 (an all-ASCII
`xn--` Punycode hostname does not trigger it); the emitted evidence is
the list of offending characters capped at 5; `google.com` yields no
signal, and a hostname with Cyrillic characters yields a signal listing
exactly those characters. -/
theorem C3_homograph_amended :
    (∀ domain : List Char,
        (detect_homograph_attacks domain).isSome = true ↔ ∃ c ∈ domain, 127 < c.toNat)
    ∧ (∀ domain e : List Char, detect_homograph_attacks domain = some e →
        e.length ≤ 5 ∧ e = (domain.filter (fun c => 127 < c.toNat)).take 5)
    ∧ detect_homograph_attacks "google.com".toList = none
    ∧ detect_homograph_attacks "xn--80ak6aa92e.com".toList = none
    ∧ detect_homograph_attacks "раypal.com".toList = some ['р', 'а'] := by
  refine ⟨?_, ?_, by decide, by decide, by decide⟩
  · intro domain
    unfold detect_homograph_attacks
    by_cases h : (domain.filter (fun c => decide (127 < c.toNat))) = []
    · rw [if_pos (List.isEmpty_iff.mpr h)]
      constructor
      · intro hs
        exact absurd hs (by simp)
      · rintro ⟨c, hc, hgt⟩
        have hm : c ∈ domain.filter (fun c => decide (127 < c.toNat)) :=
          List.mem_filter.mpr ⟨hc, decide_eq_true hgt⟩
        rw [h] at hm
        exact absurd hm (List.not_mem_nil c)
    · rw [if_neg (fun hc => h (List.isEmpty_iff.mp hc))]
      constructor
      · intro _
        obtain ⟨c, hc⟩ := List.exists_mem_of_ne_nil _ h
        have hm := List.mem_filter.mp hc
        exact ⟨c, hm.1, of_decide_eq_true hm.2⟩
      · intro _
        simp
  · intro domain e h
    unfold detect_homograph_attacks at h
    by_cases hc : (domain.filter (fun c => decide (127 < c.toNat))).isEmpty
    · rw [if_pos hc] at h
      exact absurd h (by simp)
    · rw [if_neg hc] at h
      obtain rfl : (domain.filter (fun c => decide (127 < c.toNat))).take 5 = e :=
        Option.some_injective _ h
      refine ⟨?_, rfl⟩
      rw [List.length_take]
      omega

/-! ### Entropy / randomness detection (`DomainAnalyzer._analyze_domain_entropy`,
domain_analyzer.py lines 510-569)

The main label is the part before the first dot; the function returns
early (emitting nothing) when the hostname has no dot, and strips a
leading `www` (three characters) before requiring length ≥ 4.  Shannon
entropy is computed over the character frequencies of the lowercased
label (`Counter(main_label.lower())`), with probabilities over
`len(main_label)`; the Python float computation is modelled over `ℝ`.
Independently a consonant:vowel ratio check runs; the ratio is computed
only under the `vowel_count > 0` guard, exactly as in the source. -/

def mainLabel? (domain : List Char) : Option (List Char) :=
  if (splitOnChar '.' domain).length < 2 then none
  else
    let m0 := (splitOnChar '.' domain).headD []
    let m1 := if ['w', 'w', 'w'].isPrefixOf m0 then m0.drop 3 else m0
    if m1.length < 4 then none else some m1

noncomputable def labelEntropy (label : List Char) : ℝ :=
  (((label.map Char.toLower).dedup).map (fun c =>
    -(((label.map Char.toLower).count c : ℝ) / (label.length : ℝ)
        * Real.logb 2 (((label.map Char.toLower).count c : ℝ) / (label.length : ℝ))))).sum

/-- `entropy > 3.8 and length >= 8` (line 541): the high-entropy negative
signal fires. -/
def highEntropyFires (domain : List Char) : Prop :=
  (mainLabel? domain).elim False
    (fun label => 3.8 < labelEntropy label ∧ 8 ≤ label.length)

def vowels : List Char := ['a', 'e', 'i', 'o', 'u']

/-- The consonant/vowel-ratio signal (lines 552-566): with
`vowel_count > 0`, fire when `(cv_ratio > 4 or cv_ratio < 0.3) and
length >= 6`.  `c.isalpha()` is modelled by `Char.isAlpha`, which agrees
on ASCII. -/
def cvRatioFires (domain : List Char) : Bool :=
  (mainLabel? domain).elim false (fun label =>
    let low := label.map Char.toLower
    let vowelCount := (low.filter (fun c => vowels.contains c)).length
    let consonantCount := (low.filter (fun c => c.isAlpha && !vowels.contains c)).length
    if 0 < vowelCount then
      decide ((4 < (consonantCount : ℚ) / (vowelCount : ℚ)
          ∨ (consonantCount : ℚ) / (vowelCount : ℚ) < 3/10) ∧ 6 ≤ label.length)
    else false)

/-- Integer form of the ratio conditions (`4 = 4/1`, `0.3 = 3/10`
cross-multiplied), for evaluating `cvRatioFires` on concrete inputs. -/
def cvRatioFiresB (domain : List Char) : Bool :=
  (mainLabel? domain).elim false (fun label =>
    let low := label.map Char.toLower
    let vowelCount := (low.filter (fun c => vowels.contains c)).length
    let consonantCount := (low.filter (fun c => c.isAlpha && !vowels.contains c)).length
    if 0 < vowelCount then
      decide ((4 * vowelCount < consonantCount ∨ 10 * consonantCount < 3 * vowelCount)
          ∧ 6 ≤ label.length)
    else false)

lemma cvRatio_cond_iff (c v len : ℕ) (hv : 0 < v) :
    ((4 < (c : ℚ) / (v : ℚ) ∨ (c : ℚ) / (v : ℚ) < 3/10) ∧ 6 ≤ len)
      ↔ ((4 * v < c ∨ 10 * c < 3 * v) ∧ 6 ≤ len) := by
  have hv' : (0:ℚ) < (v : ℚ) := by exact_mod_cast hv
  constructor
  · rintro ⟨h1 | h1, h2⟩
    · refine ⟨Or.inl ?_, h2⟩
      have := (lt_div_iff₀ hv').mp h1
      exact_mod_cast (by linarith : (4 * v : ℚ) < (c : ℚ))
    · refine ⟨Or.inr ?_, h2⟩
      have := (div_lt_div_iff₀ hv' (by norm_num : (0:ℚ) < 10)).mp h1
      exact_mod_cast (by linarith : (10 * c : ℚ) < (3 * v : ℚ))
  · rintro ⟨h1 | h1, h2⟩
    · refine ⟨Or.inl ?_, h2⟩
      rw [lt_div_iff₀ hv']
      have : (4 * v : ℚ) < (c : ℚ) := by exact_mod_cast h1
      linarith
    · refine ⟨Or.inr ?_, h2⟩
      rw [div_lt_div_iff₀ hv' (by norm_num : (0:ℚ) < 10)]
      have : (10 * c : ℚ) < (3 * v : ℚ) := by exact_mod_cast h1
      linarith

lemma cvRatioFires_eq (domain : List Char) : cvRatioFires domain = cvRatioFiresB domain := by
  unfold cvRatioFires cvRatioFiresB
  cases hm : mainLabel? domain with
  | none => rfl
  | some label =>
    simp only [Option.elim]
    by_cases hv : 0 < ((label.map Char.toLower).filter (fun c => vowels.contains c)).length
    · rw [if_pos hv, if_pos hv]
      exact decide_eq_decide.mpr (cvRatio_cond_iff _ _ _ hv)
    · rw [if_neg hv, if_neg hv]

/-! ### Evaluating the entropy on concrete labels -/

/-- For a label of pairwise-distinct lowercase characters every frequency
count is 1, so the Shannon entropy is `log2` of the length. -/
lemma labelEntropy_of_nodup (l : List Char) (hlow : l.map Char.toLower = l)
    (hnd : l.Nodup) (hne : l.length ≠ 0) :
    labelEntropy l = Real.logb 2 (l.length : ℝ) := by
  have hnR : (l.length : ℝ) ≠ 0 := Nat.cast_ne_zero.mpr hne
  unfold labelEntropy
  rw [hlow, List.dedup_eq_self.mpr hnd]
  have hmap : l.map (fun c =>
      -((l.count c : ℝ) / (l.length : ℝ)
          * Real.logb 2 ((l.count c : ℝ) / (l.length : ℝ))))
      = l.map (fun _ =>
        -((1 : ℝ) / (l.length : ℝ) * Real.logb 2 ((1 : ℝ) / (l.length : ℝ)))) := by
    apply List.map_congr_left
    intro a ha
    rw [List.count_eq_one_of_mem hnd ha]
    norm_num
  rw [hmap, List.map_const', List.sum_replicate, nsmul_eq_mul, one_div, Real.logb_inv]
  field_simp

lemma logb_two_ten_lt : Real.logb 2 (10 : ℝ) < 3.8 := by
  have hlog2 : (0:ℝ) < Real.log 2 := Real.log_pos (by norm_num)
  rw [Real.logb, div_lt_iff₀ hlog2]
  have h : Real.log ((10:ℝ) ^ (5:ℕ)) < Real.log ((2:ℝ) ^ (19:ℕ)) :=
    Real.log_lt_log (by positivity) (by norm_num)
  rw [Real.log_pow, Real.log_pow] at h
  push_cast at h
  linarith

lemma logb_two_fourteen_gt : (3.8 : ℝ) < Real.logb 2 (14 : ℝ) := by
  have hlog2 : (0:ℝ) < Real.log 2 := Real.log_pos (by norm_num)
  rw [Real.logb, lt_div_iff₀ hlog2]
  have h : Real.log ((2:ℝ) ^ (19:ℕ)) < Real.log ((14:ℝ) ^ (5:ℕ)) :=
    Real.log_lt_log (by positivity) (by norm_num)
  rw [Real.log_pow, Real.log_pow] at h
  push_cast at h
  linarith

lemma highEntropyFires_some (domain label : List Char)
    (hm : mainLabel? domain = some label) :
    highEntropyFires domain ↔ (3.8 < labelEntropy label ∧ 8 ≤ label.length) := by
  unfold highEntropyFires
  rw [hm]
  rfl

/-- The label `xk7qz9wj2p` has 10 pairwise-distinct characters, so its
entropy is `log2 10 ≈ 3.32`, below the 3.8 threshold: no signal. -/
lemma xk7qz_no_high_entropy : ¬ highEntropyFires "xk7qz9wj2p.com".toList := by
  rw [highEntropyFires_some _ "xk7qz9wj2p".toList (by decide)]
  rintro ⟨h1, -⟩
  rw [labelEntropy_of_nodup _ (by decide) (by decide) (by decide)] at h1
  have hlen : ("xk7qz9wj2p".toList.length : ℝ) = (10 : ℝ) := by
    have : "xk7qz9wj2p".toList.length = 10 := by decide
    rw [this]
    norm_num
  rw [hlen] at h1
  exact absurd h1 (not_lt.mpr (le_of_lt logb_two_ten_lt))

lemma google_no_high_entropy : ¬ highEntropyFires "google.com".toList := by
  rw [highEntropyFires_some _ "google".toList (by decide)]
  rintro ⟨-, h2⟩
  have : "google".toList.length = 6 := by decide
  omega

lemma label14_high_entropy : highEntropyFires "abcdefghjklmnp.com".toList := by
  rw [highEntropyFires_some _ "abcdefghjklmnp".toList (by decide)]
  constructor
  · rw [labelEntropy_of_nodup _ (by decide) (by decide) (by decide)]
    have hlen : ("abcdefghjklmnp".toList.length : ℝ) = (14 : ℝ) := by
      have : "abcdefghjklmnp".toList.length = 14 := by decide
      rw [this]
      norm_num
    rw [hlen]
    exact logb_two_fourteen_gt
  · decide

/-- C2's claimed trigger fails: the first label `xk7qz9wj2p` does not
fire the high-entropy signal, since its 10 distinct characters give
Shannon entropy `log2 10 ≈ 3.32`, below the 3.8 threshold. -/
theorem C2_counterexample : ¬ highEntropyFires "xk7qz9wj2p.com".toList :=
  xk7qz_no_high_entropy

/-- C2 (amended): the detector's shape is as described (label length ≥ 4
after stripping a leading `www`, firing on entropy > 3.8 with length
≥ 8), but `xk7qz9wj2p` does not fire it — its entropy is
`log2 10 ≈ 3.32 < 3.8` — and it fires no consonant/vowel signal either
(the label has no vowels).  `google` fires nothing, as claimed.  A label
of 14 distinct characters (entropy `log2 14 ≈ 3.81`) does fire the
high-entropy signal. -/
theorem C2_entropy_amended :
    ¬ highEntropyFires "xk7qz9wj2p.com".toList
    ∧ cvRatioFires "xk7qz9wj2p.com".toList = false
    ∧ ¬ highEntropyFires "google.com".toList
    ∧ cvRatioFires "google.com".toList = false
    ∧ highEntropyFires "abcdefghjklmnp.com".toList := by
  refine ⟨xk7qz_no_high_entropy, ?_, google_no_high_entropy, ?_, label14_high_entropy⟩
  · rw [cvRatioFires_eq]
    decide
  · rw [cvRatioFires_eq]
    decide

/-- C10: a main label with no vowel characters never reaches the ratio
computation — the `vowel_count > 0` guard short-circuits, so no
division occurs and the unusual-letter-distribution signal cannot
fire. -/
theorem C10_no_vowel_no_ratio_signal (domain label : List Char)
    (hm : mainLabel? domain = some label)
    (hv : (label.map Char.toLower).filter (fun c => vowels.contains c) = []) :
    cvRatioFires domain = false := by
  unfold cvRatioFires
  rw [hm]
  have h2 : ((label.map Char.toLower).filter (fun c => vowels.contains c)).length = 0 := by
    rw [hv]
    rfl
  simp only [Option.elim]
  rw [h2]
  simp

theorem C10_witness : cvRatioFires "xkcdqm.com".toList = false :=
  C10_no_vowel_no_ratio_signal "xkcdqm.com".toList "xkcdqm".toList (by decide) (by decide)

/-! ### The orchestrator (`RobustPhishingDetector.analyze_url`) and the
whitelist store (`CompanyDatabase`)

An analysis request is modelled against an environment holding the
whitelist store's state and the outcome each analyzer would produce
(the dict `_safe_analyzer_call` returns: an optional `'error'` entry, a
`score`, and an explanation list).  `analyze_url` returns the result
together with the list of signal sources invoked, in invocation order —
the frame of the request.  The explanation `summary` sub-dict, the
`component_scores` map, the `warnings` bucket and the timing fields are
presentation data no claim mentions and are not modelled. -/

structure Signal where
  stype : String
  sdescription : String
  points : ℚ
  evidence : String
  module : String
deriving DecidableEq

structure AnalyzerResult where
  err : Option String
  score : ℚ
  explanations : List Signal
deriving DecidableEq

structure CompanyRec where
  name : String
  industry : String
deriving DecidableEq

/-- What `is_domain_whitelisted` returns on a hit (`company_name` and
`industry`; the `status`/`website`/`source` entries are constants or
unused by the detector). -/
structure CompanyInfo where
  company_name : String
  industry : String
deriving DecidableEq

structure Env where
  whitelistDomains : List String
  companyLookup : List (String × CompanyRec)
  domainR : AnalyzerResult
  contentR : AnalyzerResult
  technicalR : AnalyzerResult
deriving DecidableEq

/-- `CompanyDatabase.domain_prefixes` (company_database.py line 33). -/
def domain_prefixes : List String :=
  ["www.", "api.", "mail.", "support.", "help.", "blog.", "shop.", "store."]

/-- `CompanyDatabase._normalize_domain` (lines 98-119): drop everything
up to the first `://`, cut at the first `/`, `?`, `#`, lowercase and
strip, then remove the first matching prefix. -/
def normalize_domain (domain : List Char) : List Char :=
  if domain.isEmpty then []
  else
    match domain_prefixes.find? (fun p => p.toList.isPrefixOf
        (trimChars ((takeUntilChar '#' (takeUntilChar '?' (takeUntilChar '/'
          (if containsSub [':', '/', '/'] domain
            then afterFirst [':', '/', '/'] domain else domain)))).map Char.toLower))) with
    | some p =>
      (trimChars ((takeUntilChar '#' (takeUntilChar '?' (takeUntilChar '/'
        (if containsSub [':', '/', '/'] domain
          then afterFirst [':', '/', '/'] domain else domain)))).map Char.toLower)).drop
        p.length
    | none =>
      trimChars ((takeUntilChar '#' (takeUntilChar '?' (takeUntilChar '/'
        (if containsSub [':', '/', '/'] domain
          then afterFirst [':', '/', '/'] domain else domain)))).map Char.toLower)

/-- `CompanyDatabase.is_domain_whitelisted` (lines 295-314), on the
in-memory store modelled by `Env`: normalize, O(1) membership test, and
build the company info from `company_lookup` (`.get` defaults to
`'Unknown'`). -/
def is_domain_whitelisted (env : Env) (url : String) : Option CompanyInfo :=
  if env.whitelistDomains.contains (String.mk (normalize_domain url.toList)) then
    match env.companyLookup.find?
        (fun p => p.1 == String.mk (normalize_domain url.toList)) with
    | some p => some ⟨p.2.name, p.2.industry⟩
    | none => some ⟨"Unknown", "Unknown"⟩
  else none

/-- `RobustPhishingDetector._validate_url` (robust_phishing_detector.py
lines 153-180).  A non-string input is outside this `String`-typed
embedding; `url.strip()` is `trimChars`. -/
def suspicious_patterns : List String := ["javascript:", "data:", "file:", "ftp:"]

def validate_url (url : String) : Bool × String :=
  if url = "" then (false, "Invalid URL format")
  else if ("http://".toList.isPrefixOf (trimChars url.toList)
      || "https://".toList.isPrefixOf (trimChars url.toList)) = false then
    (false, "URL must start with http:// or https://")
  else if 2048 < (trimChars url.toList).length then
    (false, "URL is too long (max 2048 characters)")
  else
    match suspicious_patterns.find?
        (fun p => containsSub p.toList ((trimChars url.toList).map Char.toLower)) with
    | some p => (false, "Unsupported URL scheme: " ++ p)
    | none => (true, String.mk (trimChars url.toList))

/-! #### Explanation merging and confidence
(`_combine_explanations_robust`, `_calculate_confidence_robust`) -/

def withModule (modName : String) (s : Signal) : Signal := { s with module := modName }

def moduleNegatives (modName : String) (r : AnalyzerResult) : List Signal :=
  if r.err.isSome then []
  else (r.explanations.map (withModule modName)).filter (fun s => s.stype == "negative")

def modulePositives (modName : String) (r : AnalyzerResult) : List Signal :=
  if r.err.isSome then []
  else (r.explanations.map (withModule modName)).filter (fun s => s.stype == "positive")

def moduleNeutrals (modName : String) (r : AnalyzerResult) : List Signal :=
  match r.err with
  | some e => [⟨"neutral", modName ++ " unavailable", 0, e, modName⟩]
  | none => (r.explanations.map (withModule modName)).filter
      (fun s => s.stype != "negative" && s.stype != "positive")

/-- Stable insertion keeping points descending: Python's stable
`sort(key=points, reverse=True)` is the unique points-descending,
originally-ordered-on-ties permutation, which stable insertion sort
computes. -/
def insertByPointsDesc (s : Signal) : List Signal → List Signal
  | [] => [s]
  | t :: rest => if t.points ≤ s.points then s :: t :: rest else t :: insertByPointsDesc s rest

def sortByPointsDesc : List Signal → List Signal
  | [] => []
  | s :: rest => insertByPointsDesc s (sortByPointsDesc rest)

/-- `_combine_explanations_robust` (lines 578-631): `(negative_signals,
positive_signals, neutral_signals)`; failed modules contribute one
neutral "unavailable" entry; negative and positive buckets are sorted by
points descending. -/
def combine_explanations_robust (d c t : AnalyzerResult) :
    List Signal × List Signal × List Signal :=
  (sortByPointsDesc (moduleNegatives "Domain Analysis" d
      ++ moduleNegatives "Content Analysis" c ++ moduleNegatives "Technical Analysis" t),
   sortByPointsDesc (modulePositives "Domain Analysis" d
      ++ modulePositives "Content Analysis" c ++ modulePositives "Technical Analysis" t),
   moduleNeutrals "Domain Analysis" d ++ moduleNeutrals "Content Analysis" c
      ++ moduleNeutrals "Technical Analysis" t)

/-- `_calculate_confidence_robust` (lines 662-686); `successes / 3 * 60`
is Python float arithmetic, modelled exactly over `ℚ` (for the values
0..3 of `successes` the float result is exact), and `int()` of the
nonnegative total is the floor. -/
def calculate_confidence_robust (negs poss : List Signal) (successes : ℕ) : ℤ :=
  min 100 ⌊((successes : ℚ) / 3) * 60
    + (min 30 (((negs.filter (fun s => decide (10 ≤ s.points))).length
        + (poss.filter (fun s => decide (8 ≤ s.points))).length) * 8) : ℕ)
    + (min 10 ((negs.length + poss.length) * 2) : ℕ)⌋

/-! #### The request pipeline -/

inductive Explanations where
  | validationError (msg : String)
  | whitelistHit (positive neutral : Signal)
  | totalFailure (msg : String) (details : List String)
  | combined (negatives positives neutrals : List Signal)
deriving DecidableEq

structure AnalysisResult where
  url : String
  trust_score : ℤ
  risk_level : String
  confidence : ℤ
  explanations : Explanations
  weights_used : List (String × ℚ)
deriving DecidableEq

/-- The `ERROR` result of a failed validation (lines 244-258); its
fixed fields, with `weights_used` absent (modelled as `[]`). -/
def validation_error_result (url msg : String) : AnalysisResult :=
  { url := url, trust_score := 0, risk_level := "ERROR", confidence := 0,
    explanations := .validationError ("URL validation failed: " ++ msg),
    weights_used := [] }

/-- The synthesized whitelist-hit result of `_check_whitelist`
(lines 193-226): trust 95, risk LOW, confidence 95, one strong positive
explanation naming the company and one neutral note. -/
def whitelist_result (url : String) (info : CompanyInfo) : AnalysisResult :=
  { url := url, trust_score := 95, risk_level := "LOW", confidence := 95,
    explanations := .whitelistHit
      ⟨"positive", "Verified legitimate company: " ++ info.company_name, 25,
        "Industry: " ++ info.industry, "Company Database"⟩
      ⟨"neutral", "Comprehensive analysis skipped for whitelisted domain", 0,
        "Domain found in legitimate company database", "Company Database"⟩,
    weights_used := [] }

/-- The `ERROR` result when zero analyses succeeded (lines 309-325),
with `details` enumerating every source's failure reason. -/
def total_failure_result (url : String) (d c t : AnalyzerResult) : AnalysisResult :=
  { url := url, trust_score := 0, risk_level := "ERROR", confidence := 0,
    explanations := .totalFailure
      "All analysis modules failed - URL may be unreachable or problematic"
      [d.err.getD "Domain analysis failed", c.err.getD "Content analysis failed",
       t.err.getD "Technical analysis failed"],
    weights_used := [] }

/-- `_combine_analysis_results_robust` (lines 502-576). -/
def combine_analysis_results_robust (url : String) (d c t : AnalyzerResult) : AnalysisResult :=
  { url := url
    trust_score :=
      trust_score_robust_int d.err.isSome c.err.isSome t.err.isSome d.score c.score t.score
    risk_level := determine_risk_level
      (trust_score_robust d.err.isSome c.err.isSome t.err.isSome d.score c.score t.score)
    confidence := calculate_confidence_robust
      (combine_explanations_robust d c t).1 (combine_explanations_robust d c t).2.1
      ((if d.err.isSome then 0 else 1) + (if c.err.isSome then 0 else 1)
        + (if t.err.isSome then 0 else 1))
    explanations := .combined (combine_explanations_robust d c t).1
      (combine_explanations_robust d c t).2.1 (combine_explanations_robust d c t).2.2
    weights_used := adjusted_weights_robust d.err.isSome c.err.isSome t.err.isSome }

/-- `analyze_url` (lines 234-354): validate, check the whitelist, then
run the Domain, Technical and Content analyzers (in that order), and
either report total failure or combine.  The second component is the
trace of signal sources invoked. -/
def analyze_url (env : Env) (url : String) : AnalysisResult × List String :=
  if (validate_url url).fst = false then
    (validation_error_result url (validate_url url).snd, [])
  else
    match is_domain_whitelisted env (validate_url url).snd with
    | some info => (whitelist_result (validate_url url).snd info, [])
    | none =>
      if env.domainR.err.isSome && env.contentR.err.isSome && env.technicalR.err.isSome then
        (total_failure_result (validate_url url).snd env.domainR env.contentR env.technicalR,
          ["Domain", "Technical", "Content"])
      else
        (combine_analysis_results_robust (validate_url url).snd env.domainR env.contentR
            env.technicalR,
          ["Domain", "Technical", "Content"])

/-! #### Concrete environments for counterexamples and witnesses -/

/-- A store holding `github.com`, all three analyzers succeeding. -/
def envGit : Env :=
  { whitelistDomains := ["github.com"],
    companyLookup := [("github.com", { name := "GitHub", industry := "Technology" })],
    domainR := { err := none, score := 0, explanations := [] },
    contentR := { err := none, score := 0, explanations := [] },
    technicalR := { err := none, score := 0, explanations := [] } }

/-- An empty store, all three analyzers succeeding with score 0. -/
def envPlain : Env :=
  { whitelistDomains := [],
    companyLookup := [],
    domainR := { err := none, score := 0, explanations := [] },
    contentR := { err := none, score := 0, explanations := [] },
    technicalR := { err := none, score := 0, explanations := [] } }

/-- An empty store, all three analyzers failing. -/
def envErr : Env :=
  { whitelistDomains := [],
    companyLookup := [],
    domainR := { err := some "Domain analysis timed out", score := 0, explanations := [] },
    contentR := { err := some "Content analysis failed", score := 0, explanations := [] },
    technicalR := { err := some "Technical analysis timed out", score := 0, explanations := [] } }

/-! #### C4: whitelist short-circuit -/

/-- C4's universal quantification over URLs fails before validation: the
URL `ftp://github.com` normalizes to the whitelisted `github.com`, but
input validation rejects it (`ftp:` is a disallowed scheme), so the
request short-circuits to `ERROR`, not to the trust-95 `LOW` whitelist
result. -/
theorem C4_counterexample :
    String.mk (normalize_domain "ftp://github.com".toList) = "github.com"
    ∧ envGit.whitelistDomains.contains "github.com" = true
    ∧ (analyze_url envGit "ftp://github.com").1.risk_level = "ERROR"
    ∧ (analyze_url envGit "ftp://github.com").1.trust_score = 0 := by
  refine ⟨by decide, by decide, ?_, ?_⟩ <;> decide

/-- C4 (amended): for every URL that passes input validation and whose
normalized domain is in the whitelist store, `analyze_url` returns the
synthesized whitelist result — trust score 95, risk `LOW`, confidence
95, a single strong positive explanation naming the company — and the
invocation trace is empty: no signal source is called. -/
theorem C4_whitelist_short_circuit (env : Env) (url : String)
    (hval : (validate_url url).fst = true)
    (hwl : env.whitelistDomains.contains
      (String.mk (normalize_domain (validate_url url).snd.toList)) = true) :
    ∃ info : CompanyInfo,
      is_domain_whitelisted env (validate_url url).snd = some info
      ∧ analyze_url env url = (whitelist_result (validate_url url).snd info, []) := by
  have hsome : ∃ info : CompanyInfo,
      is_domain_whitelisted env (validate_url url).snd = some info := by
    unfold is_domain_whitelisted
    rw [if_pos hwl]
    rcases hf : env.companyLookup.find?
        (fun p => p.1 == String.mk (normalize_domain (validate_url url).snd.toList)) with
      _ | p
    · exact ⟨⟨"Unknown", "Unknown"⟩, by rw [hf]⟩
    · exact ⟨⟨p.2.name, p.2.industry⟩, by rw [hf]⟩
  obtain ⟨info, hinfo⟩ := hsome
  refine ⟨info, hinfo, ?_⟩
  unfold analyze_url
  rw [hval, hinfo]
  simp

theorem C4_witness :
    ∃ info : CompanyInfo,
      is_domain_whitelisted envGit (validate_url "https://github.com").snd = some info
      ∧ analyze_url envGit "https://github.com"
          = (whitelist_result (validate_url "https://github.com").snd info, []) :=
  C4_whitelist_short_circuit envGit "https://github.com" (by decide) (by decide)

/-! #### C5: validation short-circuit -/

lemma trust_score_robust_zero : trust_score_robust false false false 0 0 0 = 70 := by
  unfold trust_score_robust weighted_score_robust base_score
  norm_num

lemma combine_risk_level (url : String) (d c t : AnalyzerResult) :
    (combine_analysis_results_robust url d c t).risk_level
      = determine_risk_level
        (trust_score_robust d.err.isSome c.err.isSome t.err.isSome d.score c.score t.score) :=
  rfl

/-- C5's conditions are checked on the whitespace-stripped input, so the
claim's quantification over raw inputs fails: `" https://example.com"`
(leading space) does not start with `http://` or `https://`, yet
validation strips it, accepts it, and the three analyzers are invoked,
producing a non-`ERROR` result. -/
theorem C5_counterexample :
    "http://".toList.isPrefixOf " https://example.com".toList = false
    ∧ "https://".toList.isPrefixOf " https://example.com".toList = false
    ∧ (analyze_url envPlain " https://example.com").2 = ["Domain", "Technical", "Content"]
    ∧ (analyze_url envPlain " https://example.com").1.risk_level = "LOW" := by
  have heval : analyze_url envPlain " https://example.com"
      = (combine_analysis_results_robust (validate_url " https://example.com").snd
          envPlain.domainR envPlain.contentR envPlain.technicalR,
        ["Domain", "Technical", "Content"]) := rfl
  refine ⟨by decide, by decide, by rw [heval], ?_⟩
  rw [heval]
  show (combine_analysis_results_robust (validate_url " https://example.com").snd
      envPlain.domainR envPlain.contentR envPlain.technicalR).risk_level = "LOW"
  rw [combine_risk_level]
  show determine_risk_level (trust_score_robust false false false 0 0 0) = "LOW"
  rw [trust_score_robust_zero]
  norm_num [determine_risk_level]

lemma validate_url_fst_false (url : String)
    (h : url = ""
      ∨ ("http://".toList.isPrefixOf (trimChars url.toList)
          || "https://".toList.isPrefixOf (trimChars url.toList)) = false
      ∨ 2048 < (trimChars url.toList).length
      ∨ (suspicious_patterns.any
          (fun p => containsSub p.toList ((trimChars url.toList).map Char.toLower))) = true) :
    (validate_url url).fst = false := by
  unfold validate_url
  by_cases h1 : url = ""
  · rw [if_pos h1]
  · rw [if_neg h1]
    by_cases h2 : ("http://".toList.isPrefixOf (trimChars url.toList)
        || "https://".toList.isPrefixOf (trimChars url.toList)) = false
    · rw [if_pos h2]
    · rw [if_neg h2]
      by_cases h3 : 2048 < (trimChars url.toList).length
      · rw [if_pos h3]
      · rw [if_neg h3]
        rcases h with h | h | h | h
        · exact absurd h h1
        · exact absurd h h2
        · exact absurd h h3
        · rcases hf : suspicious_patterns.find?
              (fun p => containsSub p.toList ((trimChars url.toList).map Char.toLower)) with
            _ | p
          · obtain ⟨x, hx, hpx⟩ := List.any_eq_true.mp h
            have hnone := List.find?_eq_none.mp hf x hx
            exact absurd hpx (by simpa using hnone)
          · rw [hf]

/-- C5 (amended): with the conditions evaluated on the
whitespace-stripped input — empty input, missing `http(s)://` scheme,
length over 2048, or a disallowed-scheme substring — validation fails
and `analyze_url` short-circuits to an `ERROR` result with zero trust
score and zero confidence, invoking no analyzer (empty trace).
A non-string input is outside this `String`-typed embedding. -/
theorem C5_validation_short_circuit (env : Env) (url : String)
    (h : url = ""
      ∨ ("http://".toList.isPrefixOf (trimChars url.toList)
          || "https://".toList.isPrefixOf (trimChars url.toList)) = false
      ∨ 2048 < (trimChars url.toList).length
      ∨ (suspicious_patterns.any
          (fun p => containsSub p.toList ((trimChars url.toList).map Char.toLower))) = true) :
    (analyze_url env url).1.risk_level = "ERROR"
    ∧ (analyze_url env url).1.trust_score = 0
    ∧ (analyze_url env url).1.confidence = 0
    ∧ (analyze_url env url).2 = [] := by
  have hf := validate_url_fst_false url h
  unfold analyze_url
  rw [hf]
  simp [validation_error_result]

theorem C5_witness :
    (analyze_url envPlain "https://x.com/javascript:alert").1.risk_level = "ERROR"
    ∧ (analyze_url envPlain "https://x.com/javascript:alert").1.trust_score = 0
    ∧ (analyze_url envPlain "https://x.com/javascript:alert").1.confidence = 0
    ∧ (analyze_url envPlain "https://x.com/javascript:alert").2 = [] :=
  C5_validation_short_circuit envPlain "https://x.com/javascript:alert"
    (Or.inr (Or.inr (Or.inr (by decide))))

/-! #### C6: total failure -/

/-- C6: when the request reaches the signal-collection stage (validation
passed, whitelist missed) and every analyzer result carries an error,
`analyze_url` returns the `ERROR` result with trust score 0 and
confidence 0, whose `details` list enumerates each source's failure
reason in source order. -/
theorem C6_total_failure (env : Env) (url : String)
    (hval : (validate_url url).fst = true)
    (hwl : is_domain_whitelisted env (validate_url url).snd = none)
    (hd : env.domainR.err.isSome = true)
    (hc : env.contentR.err.isSome = true)
    (ht : env.technicalR.err.isSome = true) :
    (analyze_url env url).1.risk_level = "ERROR"
    ∧ (analyze_url env url).1.trust_score = 0
    ∧ (analyze_url env url).1.confidence = 0
    ∧ (analyze_url env url).1.explanations
        = .totalFailure "All analysis modules failed - URL may be unreachable or problematic"
          [env.domainR.err.getD "Domain analysis failed",
           env.contentR.err.getD "Content analysis failed",
           env.technicalR.err.getD "Technical analysis failed"] := by
  have hmain : analyze_url env url
      = (total_failure_result (validate_url url).snd env.domainR env.contentR env.technicalR,
        ["Domain", "Technical", "Content"]) := by
    unfold analyze_url
    rw [hval, hwl, hd, hc, ht]
    simp
  rw [hmain]
  exact ⟨rfl, rfl, rfl, rfl⟩

theorem C6_witness :
    (analyze_url envErr "https://unreachable.example").1.risk_level = "ERROR"
    ∧ (analyze_url envErr "https://unreachable.example").1.trust_score = 0
    ∧ (analyze_url envErr "https://unreachable.example").1.confidence = 0
    ∧ (analyze_url envErr "https://unreachable.example").1.explanations
        = .totalFailure "All analysis modules failed - URL may be unreachable or problematic"
          [envErr.domainR.err.getD "Domain analysis failed",
           envErr.contentR.err.getD "Content analysis failed",
           envErr.technicalR.err.getD "Technical analysis failed"] :=
  C6_total_failure envErr "https://unreachable.example" (by decide) (by decide) rfl rfl rfl

end PhishDetect
